import Mathlib

/-!
Verification of the transformer thermal model core against its source.

This file gives a shallow embedding, over exact rational arithmetic, of the
parts of `transformer_thermal_model` that the checked properties concern:

* the ONAF/ONAN cooling-switch configuration and its construction-time
  validation (`schemas/thermal_model/onaf_switch.py`),
* the cooling switch controller (`transformer/cooling_switch_controller.py`),
* the abstract transformer constructor (`transformer/base.py`),
* the three-winding loss decomposition and end top-oil temperature
  (`transformer/threewinding.py`),
* the hot-spot factor calibration search
  (`hot_spot_calibration/calibrate_hotspot_factor.py`).

Python floats are modelled by `ℚ`; a numpy computation that can only produce
a non-finite value (division by zero yielding NaN or infinity) is modelled
by an `Option` that is `none` there.  Exceptions raised by constructors are
modelled by `Except`.
-/

namespace TTM

/-- Cooling type of a transformer (`cooler.CoolerType`). -/
inductive CoolerType where
  | onan
  | onaf
deriving DecidableEq, Repr

/-- `FanSwitchConfig` from `onaf_switch.py`: the activation/deactivation
temperature pair of a threshold-mode cooling switch.  The record holds the
fields; the pydantic `check_temperatures` validator is embedded as the
constructor `mkFanSwitchConfig` below. -/
structure FanSwitchConfig where
  activation_temp : ℚ
  deactivation_temp : ℚ
deriving DecidableEq, Repr

/-- Construction-time errors of the cooling-switch configuration
(`ValueError`s raised by the pydantic validators in `onaf_switch.py`). -/
inductive SwitchConfigError where
  | activationNotAboveDeactivation
  | bothProvided
  | neitherProvided
deriving DecidableEq, Repr

/-- `FanSwitchConfig.check_temperatures` (onaf_switch.py lines 18-23):
constructing a threshold pair fails iff the activation temperature is not
strictly above the deactivation temperature. -/
def mkFanSwitchConfig (activation_temp deactivation_temp : ℚ) :
    Except SwitchConfigError FanSwitchConfig :=
  if activation_temp ≤ deactivation_temp then
    Except.error SwitchConfigError.activationNotAboveDeactivation
  else
    Except.ok ⟨activation_temp, deactivation_temp⟩

/-- The validated fields of `ONAFSwitchBase`: an optional fan-status schedule
and an optional temperature threshold.  (The attached ONAN parameter set is
irrelevant to the checked properties and omitted.) -/
structure ONAFSwitchCfg where
  fans_status : Option (List Bool)
  temperature_threshold : Option FanSwitchConfig
deriving DecidableEq, Repr

/-- `ONAFSwitchBase.check_consistency` (onaf_switch.py lines 67-80):
constructing the switch fails iff both, or neither, of `fans_status` and
`temperature_threshold` are provided. -/
def mkONAFSwitchBase (fans_status : Option (List Bool))
    (temperature_threshold : Option FanSwitchConfig) :
    Except SwitchConfigError ONAFSwitchCfg :=
  if fans_status.isSome ∧ temperature_threshold.isSome then
    Except.error SwitchConfigError.bothProvided
  else if fans_status.isNone ∧ temperature_threshold.isNone then
    Except.error SwitchConfigError.neitherProvided
  else
    Except.ok ⟨fans_status, temperature_threshold⟩

/-- Constructing a full cooling-switch configuration from raw user input: a
threshold pair, when given, is validated by `mkFanSwitchConfig` (pydantic
validates the nested `FanSwitchConfig` first), then the switch itself is
validated by `mkONAFSwitchBase`. -/
def mkCoolingSwitchConfig (fans_status : Option (List Bool))
    (threshold_pair : Option (ℚ × ℚ)) : Except SwitchConfigError ONAFSwitchCfg :=
  match threshold_pair with
  | none => mkONAFSwitchBase fans_status none
  | some (a, d) => do
      let cfg ← mkFanSwitchConfig a d
      mkONAFSwitchBase fans_status (some cfg)

/-- The two parameter sets the cooling switch controller chooses between:
`forced` stands for the controller's `original_onaf_specs` (the ONAF set) and
`natural` for the merged ONAN set built by `create_onan_specifications`. -/
inductive SpecChoice where
  | forced
  | natural
deriving DecidableEq, Repr

/-- `CoolingSwitchController.determine_initial_specifications`
(cooling_switch_controller.py lines 115-132).  With a fan schedule, the
first entry decides (indexing an empty schedule raises in Python, hence
`none`); otherwise, with a temperature threshold, the caller's initial
top-oil temperature is compared against the activation threshold; in every
remaining case the original ONAF specifications are returned. -/
def determine_initial_specifications (fans_status : Option (List Bool))
    (temperature_threshold : Option FanSwitchConfig)
    (initial_top_oil_temperature : ℚ) : Option SpecChoice :=
  match fans_status with
  | some l =>
    match l.head? with
    | none => none
    | some b => if b = false then some SpecChoice.natural else some SpecChoice.forced
  | none =>
    match temperature_threshold with
    | some cfg =>
      if initial_top_oil_temperature < cfg.activation_temp then
        some SpecChoice.natural
      else
        some SpecChoice.forced
    | none => some SpecChoice.forced

/-- `CoolingSwitchController._handle_temp_threshold_switch`
(cooling_switch_controller.py lines 190-203).  A rising crossing of the
activation threshold returns the ONAF set, a falling crossing of the
deactivation threshold returns the ONAN set, and otherwise no switch
happens.  The Python chained comparisons
`previous < activation <= current` and `previous > deactivation >= current`
are conjunctions. -/
def handle_temp_threshold_switch (temp_threshold : FanSwitchConfig)
    (top_oil_temp previous_top_oil_temp : ℚ) : Option SpecChoice :=
  if previous_top_oil_temp < temp_threshold.activation_temp ∧
      temp_threshold.activation_temp ≤ top_oil_temp then
    some SpecChoice.forced
  else if previous_top_oil_temp > temp_threshold.deactivation_temp ∧
      temp_threshold.deactivation_temp ≥ top_oil_temp then
    some SpecChoice.natural
  else
    none

/-- The state stored by `Transformer.__init__` (base.py lines 33-46). -/
structure TransformerBase where
  cooling_type : CoolerType
  ONAF_switch : Option ONAFSwitchCfg
deriving DecidableEq, Repr

/-- `Transformer.__init__` (base.py lines 33-46): rejects an ONAF switch
combined with ONAN cooling, otherwise stores the cooling type and switch. -/
def mkTransformer (cooling_type : CoolerType) (ONAF_switch : Option ONAFSwitchCfg) :
    Except String TransformerBase :=
  if cooling_type = CoolerType.onan ∧ ONAF_switch ≠ none then
    Except.error "ONAF switch only works when the cooling type is ONAF."
  else
    Except.ok ⟨cooling_type, ONAF_switch⟩

/-- `WindingSpecifications` from `schemas/specifications/transformer.py`:
per-winding nominal load and winding-oil gradient. -/
structure WindingSpecifications where
  nom_load : ℚ
  winding_oil_gradient : ℚ
deriving DecidableEq, Repr

/-- `ThreeWindingTransformerSpecifications`
(schemas/specifications/transformer.py lines 194-224), restricted to the
fields that the end top-oil temperature computation reads.  The remaining
thermal constants (time constants, k-constants, winding exponent, hot-spot
factor, end-temperature reduction) are never read by the functions embedded
here and are omitted. -/
structure ThreeWindingTransformerSpecifications where
  no_load_loss : ℚ
  amb_temp_surcharge : ℚ
  top_oil_temp_rise : ℚ
  oil_exp_x : ℚ
  lv_winding : WindingSpecifications
  mv_winding : WindingSpecifications
  hv_winding : WindingSpecifications
  load_loss_hv_lv : ℚ
  load_loss_hv_mv : ℚ
  load_loss_mv_lv : ℚ
  load_loss_total : ℚ
deriving DecidableEq, Repr

/-- The `load_loss_total` derivation inside
`ThreeWindingTransformerSpecifications.create` (transformer.py lines
220-222): when the user supplies no total load loss it is the sum of the
three pairwise losses. -/
def derive_load_loss_total (user_total : Option ℚ)
    (load_loss_hv_lv load_loss_hv_mv load_loss_mv_lv : ℚ) : ℚ :=
  user_total.getD (load_loss_hv_lv + load_loss_hv_mv + load_loss_mv_lv)

namespace ThreeWindingTransformer

variable (s : ThreeWindingTransformerSpecifications)

/-- `ThreeWindingTransformer._c1` (threewinding.py lines 89-92). -/
def c1 : ℚ := s.hv_winding.nom_load / s.mv_winding.nom_load

/-- `ThreeWindingTransformer._c2` (threewinding.py lines 94-97). -/
def c2 : ℚ := s.mv_winding.nom_load / s.lv_winding.nom_load

/-- `ThreeWindingTransformer._get_loss_hc` (threewinding.py lines 99-105). -/
def get_loss_hc : ℚ :=
  (1 / 2 / c1 s) *
    (s.load_loss_hv_mv - (1 / c2 s) * s.load_loss_mv_lv + (1 / c2 s) * s.load_loss_hv_lv)

/-- `ThreeWindingTransformer._get_loss_mc` (threewinding.py lines 107-111). -/
def get_loss_mc : ℚ :=
  (1 / 2 / c2 s) *
    (c2 s * s.load_loss_hv_mv - s.load_loss_hv_lv + s.load_loss_mv_lv)

/-- `ThreeWindingTransformer._get_loss_lc` (threewinding.py lines 113-115). -/
def get_loss_lc : ℚ :=
  1 / 2 * (s.load_loss_hv_lv - c2 s * s.load_loss_hv_mv + s.load_loss_mv_lv)

/-- `ThreeWindingTransformer._pre_factor` (threewinding.py lines 81-83). -/
def pre_factor : ℚ := s.top_oil_temp_rise

/-- `ThreeWindingTransformer._end_temperature_top_oil` (threewinding.py
lines 117-126) at one load triple `(HV, MV, LV)`.  The Python function maps
over numpy arrays; each array entry is computed as embedded here.  When a
rated load or the total load loss is zero, every float path of the source
produces a non-finite value (a division by zero, giving NaN or infinity),
which is modelled by `none`; otherwise the result is the exact rational
value of the float expression. -/
def end_temperature_top_oil (load : ℚ × ℚ × ℚ) : Option ℚ :=
  if s.hv_winding.nom_load = 0 ∨ s.mv_winding.nom_load = 0 ∨
      s.lv_winding.nom_load = 0 ∨ s.load_loss_total = 0 then
    none
  else
    some (pre_factor s *
      (get_loss_hc s * (load.1 / s.hv_winding.nom_load) ^ 2
        + get_loss_mc s * (load.2.1 / s.mv_winding.nom_load) ^ 2
        + get_loss_lc s * (load.2.2 / s.lv_winding.nom_load) ^ 2
        + s.no_load_loss) / s.load_loss_total)

end ThreeWindingTransformer

/-- Modelled from the spec: the three-winding end top-oil temperature as
§4.1 of the specification states it, `top_oil_temp_rise × ((no_load_loss +
Σ winding_loss × (load_i/rated_i)²) / total_load_loss) ^ oil_exponent`,
with each winding's individual loss recovered per §4.2.  The exponentiation
is real exponentiation by the (possibly non-integral) oil exponent, so the
value lives in `ℝ`.  This definition exists only to be compared against the
source's `end_temperature_top_oil`, which lacks the final power. -/
noncomputable def spec_end_temperature_top_oil
    (s : ThreeWindingTransformerSpecifications) (load : ℚ × ℚ × ℚ) : ℝ :=
  (s.top_oil_temp_rise : ℝ) *
    (((s.no_load_loss : ℝ)
      + (ThreeWindingTransformer.get_loss_hc s : ℝ) *
          ((load.1 : ℝ) / (s.hv_winding.nom_load : ℝ)) ^ 2
      + (ThreeWindingTransformer.get_loss_mc s : ℝ) *
          ((load.2.1 : ℝ) / (s.mv_winding.nom_load : ℝ)) ^ 2
      + (ThreeWindingTransformer.get_loss_lc s : ℝ) *
          ((load.2.2 : ℝ) / (s.lv_winding.nom_load : ℝ)) ^ 2)
      / (s.load_loss_total : ℝ)) ^ (s.oil_exp_x : ℝ)

/-- The state of a transformer as `calibrate_hotspot_factor` touches it: the
hot-spot factor (written by `_set_HS_fac`), the ambient temperature
surcharge (zeroed during the search and restored before return), and all
remaining specification data, opaque to the calibration, collected in
`other`.  The `copy.deepcopy` at calibrate_hotspot_factor.py line 50 makes
the copy the search mutates independent of the caller's object, so the
function is faithfully modelled as a pure map from the input value to the
returned value. -/
structure CalTransformer (α : Type) where
  hot_spot_fac : ℚ
  amb_temp_surcharge : ℚ
  other : α
deriving DecidableEq, Repr

/-- The descending search loop shared by the `PowerTransformer` branch
(calibrate_hotspot_factor.py lines 68-81) and the `ThreeWindingTransformer`
branch (lines 115-134) of `calibrate_hotspot_factor`, parameterised by
`peak`, the peak one-week simulated hot-spot temperature as a function of
the candidate hot-spot factor (the one quantity the loop body varies; the
rest of the transformer and the synthetic constant profile are fixed).
`cand` is the candidate about to be simulated (`old_hot_spot_factor` of the
iteration); the result is the value of `old_hot_spot_factor` after the
`while` loop exits.  The loop exits once the measured peak no longer
exceeds `hot_spot_limit`, or once the next candidate
`cand - 0.01` drops below `lo - 0.01`.  `fuel` bounds the number of
iterations; `calibrate_fuel` below always supplies enough. -/
def calibrate_loop (peak : ℚ → ℚ) (hot_spot_limit lo : ℚ) (fuel : ℕ) (cand : ℚ) : ℚ :=
  if fuel = 0 then cand
  else if peak cand - hot_spot_limit > 0 then
    if cand - 1 / 100 ≥ lo - 1 / 100 then
      calibrate_loop peak hot_spot_limit lo (fuel - 1) (cand - 1 / 100)
    else cand
  else cand
termination_by fuel
decreasing_by omega

/-- Iteration budget for `calibrate_loop`: strictly more than the number of
`0.01` steps between `hi` and `lo`. -/
def calibrate_fuel (lo hi : ℚ) : ℕ := (⌈(hi - lo) * 100⌉).toNat + 1

/-- `np.clip` as used at calibrate_hotspot_factor.py lines 81 and 134 (with
`lo ≤ hi`). -/
def clip (a lo hi : ℚ) : ℚ := min (max a lo) hi

/-- `calibrate_hotspot_factor` (calibrate_hotspot_factor.py lines 21-147),
parameterised by `peak` as in `calibrate_loop`.  Rejects `lo > hi`; deep
copies the transformer; zeroes the copy's ambient temperature surcharge;
runs the descending search from `hi` (the `while` condition holds at entry
because `difference` starts at `100.0` and `hi ≥ lo > lo - 0.01`, so the
loop body runs at least once and `old_hot_spot_factor` is bound); clips the
final candidate into `[lo, hi]` and writes it with `_set_HS_fac`; restores
the surcharge from the input transformer; returns the copy. -/
def calibrate_hotspot_factor {α : Type} (peak : ℚ → ℚ)
    (uncalibrated_transformer : CalTransformer α)
    (hot_spot_limit _ambient_temp lo hi : ℚ) : Except String (CalTransformer α) :=
  if lo > hi then
    Except.error
      "The upper bound cannot be smaller than the lower bound of the hot-spot factor limits."
  else
    let c0 := uncalibrated_transformer
    let c1 := { c0 with amb_temp_surcharge := 0 }
    let old_hot_spot_factor := calibrate_loop peak hot_spot_limit lo (calibrate_fuel lo hi) hi
    let c2 := { c1 with hot_spot_fac := clip old_hot_spot_factor lo hi }
    let c3 := { c2 with amb_temp_surcharge := uncalibrated_transformer.amb_temp_surcharge }
    Except.ok c3

/-! ## Concrete specification instances used in witnesses and counterexamples -/

/-- A three-winding specification with rated loads `4, 2, 1` (so `c1 = c2 = 2`)
and pairwise losses `10, 8, 6`. -/
def reconstructionSpecs : ThreeWindingTransformerSpecifications :=
  { no_load_loss := 1, amb_temp_surcharge := 0, top_oil_temp_rise := 60, oil_exp_x := 4/5,
    lv_winding := ⟨1, 17⟩, mv_winding := ⟨2, 17⟩, hv_winding := ⟨4, 17⟩,
    load_loss_hv_lv := 8, load_loss_hv_mv := 10, load_loss_mv_lv := 6,
    load_loss_total := derive_load_loss_total none 8 10 6 }

/-- A specification with zero no-load loss and zero pairwise losses but a
user-supplied nonzero total load loss. -/
def zeroPairwiseSpecs : ThreeWindingTransformerSpecifications :=
  { no_load_loss := 0, amb_temp_surcharge := 0, top_oil_temp_rise := 60, oil_exp_x := 4/5,
    lv_winding := ⟨1, 17⟩, mv_winding := ⟨1, 17⟩, hv_winding := ⟨1, 17⟩,
    load_loss_hv_lv := 0, load_loss_hv_mv := 0, load_loss_mv_lv := 0,
    load_loss_total := derive_load_loss_total (some 5) 0 0 0 }

/-- A fully zero-loss specification: zero no-load loss, zero pairwise losses,
and the total load loss derived (as in `create`) as their sum, hence zero. -/
def zeroLossSpecs : ThreeWindingTransformerSpecifications :=
  { no_load_loss := 0, amb_temp_surcharge := 0, top_oil_temp_rise := 60, oil_exp_x := 4/5,
    lv_winding := ⟨1, 17⟩, mv_winding := ⟨1, 17⟩, hv_winding := ⟨1, 17⟩,
    load_loss_hv_lv := 0, load_loss_hv_mv := 0, load_loss_mv_lv := 0,
    load_loss_total := derive_load_loss_total none 0 0 0 }

/-- A specification on which the source's end top-oil temperature and the
specification's formula visibly differ: all rated loads `1`, pairwise losses
`2` (so each recovered winding loss is `1` and the total is `6`), no-load
loss `9` and oil exponent `2`, giving loss ratio `(1+1+1+9)/6 = 2` at unit
loads. -/
def missingExponentSpecs : ThreeWindingTransformerSpecifications :=
  { no_load_loss := 9, amb_temp_surcharge := 0, top_oil_temp_rise := 1, oil_exp_x := 2,
    lv_winding := ⟨1, 17⟩, mv_winding := ⟨1, 17⟩, hv_winding := ⟨1, 17⟩,
    load_loss_hv_lv := 2, load_loss_hv_mv := 2, load_loss_mv_lv := 2,
    load_loss_total := derive_load_loss_total none 2 2 2 }

/-- A peak-temperature oracle that never exceeds any positive ceiling. -/
def peak_zero : ℚ → ℚ := fun _ => 0

/-- A peak-temperature oracle proportional to the candidate hot-spot factor. -/
def peak_linear : ℚ → ℚ := fun x => 1000 * x

/-- A transformer value entering calibration: hot-spot factor `3/2`, ambient
temperature surcharge `5`. -/
def calExample : CalTransformer Unit := ⟨3/2, 5, ()⟩

/-! ## Theorems -/

/-- Characterization of the calibration search loop: started at `cand` with
enough fuel, it stops at the first candidate (descending in steps of `0.01`)
whose peak does not exceed the limit or which falls below `lo`; every
earlier candidate's peak exceeded the limit and was at least `lo`. -/
lemma calibrate_loop_spec (peak : ℚ → ℚ) (limit lo : ℚ) :
    ∀ (fuel : ℕ) (cand : ℚ), 100 * (cand - lo) < fuel →
    ∃ k : ℕ, calibrate_loop peak limit lo fuel cand = cand - k / 100
      ∧ (∀ j : ℕ, j < k → peak (cand - j / 100) - limit > 0 ∧ lo ≤ cand - j / 100)
      ∧ (peak (cand - k / 100) - limit ≤ 0 ∨ cand - k / 100 < lo) := by
  intro fuel
  induction fuel with
  | zero =>
    intro cand h
    push_cast at h
    refine ⟨0, ?_, fun j hj => absurd hj (Nat.not_lt_zero j), Or.inr (by linarith)⟩
    rw [calibrate_loop]
    norm_num
  | succ n ih =>
    intro cand h
    push_cast at h
    rw [calibrate_loop]
    rw [if_neg (Nat.succ_ne_zero n)]
    by_cases hp : peak cand - limit > 0
    · rw [if_pos hp]
      by_cases hc : cand - 1 / 100 ≥ lo - 1 / 100
      · rw [if_pos hc]
        have hstep : (n + 1) - 1 = n := rfl
        rw [hstep]
        obtain ⟨k, hk, hall, hstop⟩ := ih (cand - 1 / 100) (by linarith)
        have harg : ∀ m : ℕ, cand - 1 / 100 - (m : ℚ) / 100 = cand - ((m : ℚ) + 1) / 100 := by
          intro m
          ring
        refine ⟨k + 1, ?_, ?_, ?_⟩
        · rw [hk, harg k]
          push_cast
          ring
        · intro j hj
          cases j with
          | zero =>
            refine ⟨by simpa using hp, ?_⟩
            have : lo ≤ cand := by linarith
            simpa using this
          | succ j' =>
            obtain ⟨hj1, hj2⟩ := hall j' (by omega)
            rw [harg j'] at hj1 hj2
            constructor
            · convert hj1 using 3
              push_cast
              ring
            · convert hj2 using 2
              push_cast
              ring
        · rcases hstop with hs | hs
          · left
            rw [harg k] at hs
            convert hs using 4
            push_cast
            ring
          · right
            rw [harg k] at hs
            convert hs using 2
            push_cast
            ring
      · rw [if_neg hc]
        refine ⟨0, by norm_num, fun j hj => absurd hj (Nat.not_lt_zero j), Or.inr ?_⟩
        push_cast
        linarith [lt_of_not_ge hc]
    · rw [if_neg hp]
      refine ⟨0, by norm_num, fun j hj => absurd hj (Nat.not_lt_zero j), Or.inl ?_⟩
      convert le_of_not_gt hp using 3
      norm_num

/-- The fuel supplied by `calibrate_hotspot_factor` covers every `0.01` step
of the search range. -/
lemma calibrate_fuel_sufficient (lo hi : ℚ) (h : lo ≤ hi) :
    100 * (hi - lo) < (calibrate_fuel lo hi : ℚ) := by
  unfold calibrate_fuel
  have h0 : (0 : ℚ) ≤ (hi - lo) * 100 := mul_nonneg (sub_nonneg.mpr h) (by norm_num)
  have hceil : (hi - lo) * 100 ≤ (⌈(hi - lo) * 100⌉ : ℚ) := Int.le_ceil _
  have hnn : (0 : ℤ) ≤ ⌈(hi - lo) * 100⌉ := Int.ceil_nonneg h0
  have htn : ((⌈(hi - lo) * 100⌉.toNat : ℕ) : ℚ) = ((⌈(hi - lo) * 100⌉ : ℤ) : ℚ) := by
    exact_mod_cast Int.toNat_of_nonneg hnn
  push_cast
  rw [htn]
  linarith

/-- Claim C2 (amended): with `min ≤ max`, calibration returns the last
candidate the search tested — the first candidate, descending from `max` in
steps of `0.01`, whose simulated peak no longer exceeds the ceiling, or the
first candidate below `min` when every tested peak exceeds it — clipped
into `[min, max]`.  (As stated the claim named the previous candidate, the
last one whose peak did exceed the ceiling; the counterexample below
refutes that.) -/
theorem calibrate_returns_first_admissible {α : Type} (peak : ℚ → ℚ)
    (t : CalTransformer α) (limit amb lo hi : ℚ) (h : lo ≤ hi) :
    ∃ k : ℕ,
      calibrate_hotspot_factor peak t limit amb lo hi =
        Except.ok ⟨clip (hi - k / 100) lo hi, t.amb_temp_surcharge, t.other⟩
      ∧ (∀ j : ℕ, j < k → peak (hi - j / 100) - limit > 0 ∧ lo ≤ hi - j / 100)
      ∧ (peak (hi - k / 100) - limit ≤ 0 ∨ hi - k / 100 < lo) := by
  obtain ⟨k, hk, hall, hstop⟩ :=
    calibrate_loop_spec peak limit lo (calibrate_fuel lo hi) hi
      (calibrate_fuel_sufficient lo hi h)
  refine ⟨k, ?_, hall, hstop⟩
  simp only [calibrate_hotspot_factor]
  rw [if_neg (not_lt.mpr h), hk]

/-- Witness for the amended C2: a search over `[0, 1]` whose peak oracle
never exceeds the ceiling. -/
theorem calibrate_returns_first_admissible_witness :
    (0 : ℚ) ≤ 1 ∧ ∃ k : ℕ,
      calibrate_hotspot_factor peak_zero calExample 1 20 0 1 =
        Except.ok ⟨clip (1 - k / 100) 0 1, calExample.amb_temp_surcharge, calExample.other⟩
      ∧ (∀ j : ℕ, j < k → peak_zero (1 - j / 100) - 1 > 0 ∧ (0 : ℚ) ≤ 1 - j / 100)
      ∧ (peak_zero (1 - k / 100) - 1 ≤ 0 ∨ (1 : ℚ) - k / 100 < 0) :=
  ⟨by norm_num, calibrate_returns_first_admissible peak_zero calExample 1 20 0 1 (by norm_num)⟩

/-- Counterexample to Claim C2 as stated: with ceiling `15`, bounds
`[0, 0.02]` and peak oracle `peak_linear`, candidate `0.02` exceeds the
ceiling and candidate `0.01` does not, so the last candidate whose peak
exceeded the ceiling is `0.02` (which is also its own clip into the
bounds); but the function returns `0.01`, the first succeeding candidate. -/
theorem calibrate_result_not_last_exceeding :
    calibrate_hotspot_factor peak_linear calExample 15 20 0 (2 / 100) =
        Except.ok ⟨1 / 100, 5, ()⟩
    ∧ peak_linear (2 / 100) - 15 > 0
    ∧ ¬(peak_linear (1 / 100) - 15 > 0)
    ∧ clip (2 / 100) 0 (2 / 100) = 2 / 100
    ∧ (1 / 100 : ℚ) ≠ 2 / 100 := by
  have hfuel : calibrate_fuel 0 (2 / 100) = 3 := by
    norm_num [calibrate_fuel]
    decide
  have hloop : calibrate_loop peak_linear 15 0 (calibrate_fuel 0 (2 / 100)) (2 / 100) = 1 / 100 := by
    rw [hfuel, calibrate_loop.eq_def]
    norm_num [peak_linear]
    rw [calibrate_loop.eq_def]
    norm_num [peak_linear]
  refine ⟨?_, by norm_num [peak_linear], by norm_num [peak_linear], by norm_num [clip],
    by norm_num⟩
  simp only [calibrate_hotspot_factor]
  rw [if_neg (by norm_num), hloop]
  norm_num [clip, calExample]

/-- Claim C7: whenever calibration returns normally, the returned
transformer's hot-spot factor lies in `[min, max]`; the loop result is
clipped into the bounds, for the single-winding and the three-winding
branch alike (both instantiate the same search loop). -/
theorem calibrated_factor_within_bounds {α : Type} (peak : ℚ → ℚ)
    (t : CalTransformer α) (limit amb lo hi : ℚ) (r : CalTransformer α)
    (h : calibrate_hotspot_factor peak t limit amb lo hi = Except.ok r) :
    lo ≤ r.hot_spot_fac ∧ r.hot_spot_fac ≤ hi := by
  unfold calibrate_hotspot_factor at h
  by_cases hlh : lo > hi
  · rw [if_pos hlh] at h
    exact absurd h (by simp)
  · rw [if_neg hlh] at h
    injection h with h'
    rw [← h']
    exact ⟨le_min (le_max_right _ _) (not_lt.mp hlh), min_le_right _ _⟩

/-- Evaluation of calibration on `calExample` with the `peak_zero` oracle:
the first candidate `1` already satisfies the ceiling, and the surcharge is
restored to `5`. -/
lemma calibrate_peak_zero_eval :
    calibrate_hotspot_factor peak_zero calExample 1 20 0 1 = Except.ok ⟨1, 5, ()⟩ := by
  have hfuel : calibrate_fuel 0 1 = 101 := by
    norm_num [calibrate_fuel]
    decide
  have hloop : calibrate_loop peak_zero 1 0 (calibrate_fuel 0 1) 1 = 1 := by
    rw [hfuel, calibrate_loop.eq_def]
    norm_num [peak_zero]
  simp only [calibrate_hotspot_factor]
  rw [if_neg (by norm_num), hloop]
  norm_num [clip, calExample]

/-- Witness for C7: the factor calibrated on `calExample` over `[0, 1]`
lies within the bounds. -/
theorem calibrated_factor_within_bounds_witness :
    (0 : ℚ) ≤ 1 ∧ (1 : ℚ) ≤ 1 :=
  calibrated_factor_within_bounds peak_zero calExample 1 20 0 1 ⟨1, 5, ()⟩
    calibrate_peak_zero_eval

/-- Claim C8: calibration acts only on its deep copy (the `copy.deepcopy` at
line 50 severs the returned value from the caller's transformer, which the
pure embedding renders as value semantics), and of the copy's fields only
the hot-spot factor may differ from the input: the ambient temperature
surcharge, zeroed during the search, is restored from the input before
return, and all other specification data is unchanged. -/
theorem calibrate_preserves_caller_fields {α : Type} (peak : ℚ → ℚ)
    (t : CalTransformer α) (limit amb lo hi : ℚ) (r : CalTransformer α)
    (h : calibrate_hotspot_factor peak t limit amb lo hi = Except.ok r) :
    r.amb_temp_surcharge = t.amb_temp_surcharge ∧ r.other = t.other := by
  unfold calibrate_hotspot_factor at h
  by_cases hlh : lo > hi
  · rw [if_pos hlh] at h
    exact absurd h (by simp)
  · rw [if_neg hlh] at h
    injection h with h'
    rw [← h']
    exact ⟨rfl, rfl⟩

/-- Witness for C8: the transformer returned for `calExample` keeps the
caller's ambient temperature surcharge and other data. -/
theorem calibrate_preserves_caller_fields_witness :
    (CalTransformer.mk (α := Unit) 1 5 ()).amb_temp_surcharge = calExample.amb_temp_surcharge
    ∧ (CalTransformer.mk (α := Unit) 1 5 ()).other = calExample.other :=
  calibrate_preserves_caller_fields peak_zero calExample 1 20 0 1 ⟨1, 5, ()⟩
    calibrate_peak_zero_eval

/-- Claim C1: on `missingExponentSpecs` at unit loads the source's
`_end_temperature_top_oil` yields a rise of `2` — the loss ratio is never
raised to the oil exponent `oil_exp_x` — while the specification's formula
`top_oil_temp_rise × ((no_load_loss + Σ winding_loss × (load_i/rated_i)²) /
total_load_loss) ^ oil_exponent` yields `2² = 4`.  The code stores
`oil_exp_x` (defaulted to `0.8` in the class's own ONAN and ONAF default
tables) but never applies it. -/
theorem end_temp_top_oil_lacks_oil_exponent :
    ThreeWindingTransformer.end_temperature_top_oil missingExponentSpecs (1, 1, 1) = some 2
    ∧ spec_end_temperature_top_oil missingExponentSpecs (1, 1, 1) = 4
    ∧ ((2 : ℚ) : ℝ) ≠ (4 : ℝ) := by
  refine ⟨?_, ?_, by norm_num⟩
  · norm_num [ThreeWindingTransformer.end_temperature_top_oil,
      ThreeWindingTransformer.pre_factor, ThreeWindingTransformer.get_loss_hc,
      ThreeWindingTransformer.get_loss_mc, ThreeWindingTransformer.get_loss_lc,
      ThreeWindingTransformer.c1, ThreeWindingTransformer.c2,
      missingExponentSpecs, derive_load_loss_total]
  · unfold spec_end_temperature_top_oil
    norm_num [ThreeWindingTransformer.get_loss_hc, ThreeWindingTransformer.get_loss_mc,
      ThreeWindingTransformer.get_loss_lc, ThreeWindingTransformer.c1,
      ThreeWindingTransformer.c2, missingExponentSpecs, derive_load_loss_total]

/-- Claim C5: the recovered per-winding losses reconstruct the three pairwise
loss measurements exactly over the rationals:
`c1·loss_HV + loss_MV = P_hv_mv`, `c1·c2·loss_HV + loss_LV = P_hv_lv` and
`c2·loss_MV + loss_LV = P_mv_lv`, for every specification with nonzero rated
loads. -/
theorem three_winding_loss_reconstruction (s : ThreeWindingTransformerSpecifications)
    (hhv : s.hv_winding.nom_load ≠ 0) (hmv : s.mv_winding.nom_load ≠ 0)
    (hlv : s.lv_winding.nom_load ≠ 0) :
    ThreeWindingTransformer.c1 s * ThreeWindingTransformer.get_loss_hc s
        + ThreeWindingTransformer.get_loss_mc s = s.load_loss_hv_mv
    ∧ ThreeWindingTransformer.c1 s * ThreeWindingTransformer.c2 s *
        ThreeWindingTransformer.get_loss_hc s
        + ThreeWindingTransformer.get_loss_lc s = s.load_loss_hv_lv
    ∧ ThreeWindingTransformer.c2 s * ThreeWindingTransformer.get_loss_mc s
        + ThreeWindingTransformer.get_loss_lc s = s.load_loss_mv_lv := by
  simp only [ThreeWindingTransformer.get_loss_hc, ThreeWindingTransformer.get_loss_mc,
    ThreeWindingTransformer.get_loss_lc, ThreeWindingTransformer.c1,
    ThreeWindingTransformer.c2]
  refine ⟨?_, ?_, ?_⟩ <;> field_simp <;> ring

/-- Witness for C5: the reconstruction identities hold on
`reconstructionSpecs`. -/
theorem three_winding_loss_reconstruction_witness :
    ThreeWindingTransformer.c1 reconstructionSpecs *
        ThreeWindingTransformer.get_loss_hc reconstructionSpecs
        + ThreeWindingTransformer.get_loss_mc reconstructionSpecs
        = reconstructionSpecs.load_loss_hv_mv
    ∧ ThreeWindingTransformer.c1 reconstructionSpecs *
        ThreeWindingTransformer.c2 reconstructionSpecs *
        ThreeWindingTransformer.get_loss_hc reconstructionSpecs
        + ThreeWindingTransformer.get_loss_lc reconstructionSpecs
        = reconstructionSpecs.load_loss_hv_lv
    ∧ ThreeWindingTransformer.c2 reconstructionSpecs *
        ThreeWindingTransformer.get_loss_mc reconstructionSpecs
        + ThreeWindingTransformer.get_loss_lc reconstructionSpecs
        = reconstructionSpecs.load_loss_mv_lv :=
  three_winding_loss_reconstruction reconstructionSpecs
    (by norm_num [reconstructionSpecs]) (by norm_num [reconstructionSpecs])
    (by norm_num [reconstructionSpecs])

/-- Counterexample to Claim C6 as stated: on the fully zero-loss
specification `zeroLossSpecs` the derived total load loss is zero, so the
division in `_end_temperature_top_oil` is a division by zero; the numpy
computation produces NaN (modelled `none`), not a zero temperature rise. -/
theorem zero_loss_end_temp_undefined :
    ThreeWindingTransformer.end_temperature_top_oil zeroLossSpecs (0, 0, 0) = none ∧
    ThreeWindingTransformer.end_temperature_top_oil zeroLossSpecs (0, 0, 0) ≠ some 0 := by
  have h : ThreeWindingTransformer.end_temperature_top_oil zeroLossSpecs (0, 0, 0) = none := by
    norm_num [ThreeWindingTransformer.end_temperature_top_oil, zeroLossSpecs,
      derive_load_loss_total]
  exact ⟨h, by rw [h]; simp⟩

/-- Claim C6 (amended): when the no-load loss and the three pairwise load
losses are zero but the total load loss is nonzero (it must then have been
supplied by the user) and the rated loads are nonzero, the end top-oil
temperature is a zero rise for every load triple. -/
theorem zero_pairwise_loss_zero_rise (s : ThreeWindingTransformerSpecifications)
    (load : ℚ × ℚ × ℚ) (h0 : s.no_load_loss = 0) (h1 : s.load_loss_hv_lv = 0)
    (h2 : s.load_loss_hv_mv = 0) (h3 : s.load_loss_mv_lv = 0)
    (ht : s.load_loss_total ≠ 0) (hhv : s.hv_winding.nom_load ≠ 0)
    (hmv : s.mv_winding.nom_load ≠ 0) (hlv : s.lv_winding.nom_load ≠ 0) :
    ThreeWindingTransformer.end_temperature_top_oil s load = some 0 := by
  unfold ThreeWindingTransformer.end_temperature_top_oil
  rw [if_neg (by simp [hhv, hmv, hlv, ht])]
  simp [ThreeWindingTransformer.get_loss_hc, ThreeWindingTransformer.get_loss_mc,
    ThreeWindingTransformer.get_loss_lc, h0, h1, h2, h3]

/-- Witness for the amended C6: `zeroPairwiseSpecs` (total load loss `5`)
gives a zero rise at load `(7, 3, 2)`. -/
theorem zero_pairwise_loss_zero_rise_witness :
    ThreeWindingTransformer.end_temperature_top_oil zeroPairwiseSpecs (7, 3, 2) = some 0 :=
  zero_pairwise_loss_zero_rise zeroPairwiseSpecs (7, 3, 2) rfl rfl rfl rfl
    (by norm_num [zeroPairwiseSpecs, derive_load_loss_total])
    (by norm_num [zeroPairwiseSpecs]) (by norm_num [zeroPairwiseSpecs])
    (by norm_num [zeroPairwiseSpecs])

/-- Claim C3: for a threshold-mode cooling switch with activation temperature
`A` and deactivation temperature `D` (a valid configuration has `D < A`),
the per-step check switches to the FORCED (ONAF) set iff
`previous < A ≤ current`, switches to the NATURAL (ONAN) set iff
`previous > D ≥ current`, and makes no transition in every other case.
The same comparisons appear verbatim in `Transformer.check_onaf_switch`
(base.py lines 69-74). -/
theorem temp_threshold_switch_characterization (cfg : FanSwitchConfig)
    (top_oil previous : ℚ) (h : cfg.deactivation_temp < cfg.activation_temp) :
    (handle_temp_threshold_switch cfg top_oil previous = some SpecChoice.forced ↔
      previous < cfg.activation_temp ∧ cfg.activation_temp ≤ top_oil)
    ∧ (handle_temp_threshold_switch cfg top_oil previous = some SpecChoice.natural ↔
      previous > cfg.deactivation_temp ∧ cfg.deactivation_temp ≥ top_oil)
    ∧ (¬(previous < cfg.activation_temp ∧ cfg.activation_temp ≤ top_oil) ∧
        ¬(previous > cfg.deactivation_temp ∧ cfg.deactivation_temp ≥ top_oil) →
        handle_temp_threshold_switch cfg top_oil previous = none) := by
  unfold handle_temp_threshold_switch
  split_ifs with h1 h2
  · refine ⟨iff_of_true rfl h1, iff_of_false (by simp) ?_, fun hn => absurd h1 hn.1⟩
    rintro ⟨_, hd⟩
    exact absurd (le_trans h1.2 hd) (not_le.mpr h)
  · exact ⟨iff_of_false (by simp) h1, iff_of_true rfl h2, fun hn => absurd h2 hn.2⟩
  · exact ⟨iff_of_false (by simp) h1, iff_of_false (by simp) h2, fun _ => rfl⟩

/-- Witness for C3: with thresholds `(70, 60)`, previous top-oil `65` and
current top-oil `72`, the rising crossing switches to the FORCED set. -/
theorem temp_threshold_switch_characterization_witness :
    handle_temp_threshold_switch ⟨70, 60⟩ 72 65 = some SpecChoice.forced :=
  ((temp_threshold_switch_characterization ⟨70, 60⟩ 72 65 (by norm_num)).1).mpr
    (by norm_num)

/-- Claim C4: with a threshold pair and no fan schedule, the controller's
initial parameter set is the NATURAL (ONAN) set exactly when the caller's
initial top-oil temperature is strictly below the activation threshold, and
the FORCED (ONAF) set exactly when it is at or above it. -/
theorem initial_specs_threshold_mode (cfg : FanSwitchConfig) (init : ℚ) :
    (determine_initial_specifications none (some cfg) init = some SpecChoice.natural ↔
      init < cfg.activation_temp)
    ∧ (determine_initial_specifications none (some cfg) init = some SpecChoice.forced ↔
      cfg.activation_temp ≤ init) := by
  dsimp only [determine_initial_specifications]
  split_ifs with h1
  · exact ⟨iff_of_true rfl h1, iff_of_false (by simp) (not_le.mpr h1)⟩
  · exact ⟨iff_of_false (by simp) h1, iff_of_true rfl (not_lt.mp h1)⟩

/-- Claim C9: constructing a cooling-switch configuration succeeds iff
exactly one of the fan-status schedule and the temperature threshold is
supplied and, in threshold mode, the activation temperature is strictly
above the deactivation temperature; every inconsistent configuration is
rejected with a construction-time error. -/
theorem cooling_switch_config_validation (fans : Option (List Bool)) (tp : Option (ℚ × ℚ)) :
    (∃ cfg, mkCoolingSwitchConfig fans tp = Except.ok cfg) ↔
      ((fans.isSome ∧ tp = none) ∨ (fans = none ∧ ∃ a d, tp = some (a, d) ∧ d < a)) := by
  rcases tp with _ | ⟨a, d⟩
  · rcases fans with _ | l <;> simp [mkCoolingSwitchConfig, mkONAFSwitchBase]
  · by_cases had : a ≤ d
    · rcases fans with _ | l <;>
        simp [mkCoolingSwitchConfig, mkFanSwitchConfig, mkONAFSwitchBase, had,
          Bind.bind, Except.bind, not_lt.mpr had, Prod.mk.injEq]
    · rcases fans with _ | l <;>
        simp [mkCoolingSwitchConfig, mkFanSwitchConfig, mkONAFSwitchBase, had,
          Bind.bind, Except.bind, not_le.mp had, Prod.mk.injEq]
      exact ⟨a, d, ⟨rfl, rfl⟩, not_le.mp had⟩

/-- Claim C10: `Transformer.__init__` raises the `ValueError`
"ONAF switch only works when the cooling type is ONAF." exactly when the
cooling type is ONAN and a switch is supplied, and otherwise succeeds and
stores the cooling type and the switch. -/
theorem transformer_init_onaf_switch_check (c : CoolerType) (s : Option ONAFSwitchCfg) :
    (mkTransformer c s =
        Except.error "ONAF switch only works when the cooling type is ONAF." ↔
      c = CoolerType.onan ∧ s ≠ none)
    ∧ (¬(c = CoolerType.onan ∧ s ≠ none) → mkTransformer c s = Except.ok ⟨c, s⟩) := by
  unfold mkTransformer
  split_ifs with h1
  · exact ⟨iff_of_true rfl h1, fun hn => absurd h1 hn⟩
  · exact ⟨iff_of_false (by simp) h1, fun _ => rfl⟩

/-- Witness for C10: an ONAF-cooled transformer accepts a threshold switch
and stores it. -/
theorem transformer_init_onaf_switch_check_witness :
    mkTransformer CoolerType.onaf (some ⟨none, some ⟨70, 60⟩⟩) =
      Except.ok ⟨CoolerType.onaf, some ⟨none, some ⟨70, 60⟩⟩⟩ :=
  (transformer_init_onaf_switch_check CoolerType.onaf (some ⟨none, some ⟨70, 60⟩⟩)).2
    (by simp)

end TTM
